import Mathlib

/-!
Shallow embedding of the drug-response prediction frontend core
(`src/components/PredictorForm.tsx` and `src/components/DrugSearchInput.tsx`).

JSON payload fields that may be absent are `Option`; JavaScript `||` defaulting
is modeled with explicit falsiness (`""` and `0` are falsy, objects and arrays
are always truthy). Network calls are modeled by passing each call's outcome in
as data. Rational numbers stand in for JS numbers; the float rounding noise of
IEEE doubles is not modeled (none of the verified properties depends on it).
-/

namespace DrugPredict

/-! ### JavaScript value helpers -/

/-- JS `a || dflt` on a possibly-absent string: `undefined` and `""` are falsy. -/
def jsOrStr (v : Option String) (dflt : String) : String :=
  match v with
  | some s => if s = "" then dflt else s
  | none => dflt

/-- JS `a || b` on possibly-absent strings, keeping `undefined` when both sides miss. -/
def jsOrStrOpt (a b : Option String) : Option String :=
  match a with
  | some s => if s = "" then b else some s
  | none => b

/-- JS `a || dflt` on a possibly-absent number: `undefined`, `NaN` and `0` are falsy. -/
def jsOrNum (v : Option ℚ) (dflt : ℚ) : ℚ :=
  match v with
  | some x => if x = 0 then dflt else x
  | none => dflt

/-- Lower-casing of a string, character by character (JS `toLowerCase` on ASCII names). -/
def lowerStr (s : String) : String :=
  ⟨s.data.map Char.toLower⟩

/-- JS `String.prototype.trim` (whitespace stripped from both ends). -/
def trimStr (s : String) : String :=
  ⟨((s.data.dropWhile Char.isWhitespace).reverse.dropWhile Char.isWhitespace).reverse⟩

/-- Does `needle` occur as a contiguous run inside the character list? -/
def listHasSub (needle : List Char) : List Char → Bool
  | [] => needle.isEmpty
  | x :: xs => needle.isPrefixOf (x :: xs) || listHasSub needle xs

/-- JS `String.prototype.includes` (case-sensitive substring test). -/
def strIncludes (s sub : String) : Bool :=
  listHasSub sub.data s.data

/-- JS `Math.round`: round half toward positive infinity. -/
def jsRound (q : ℚ) : ℤ :=
  ⌊q + 1/2⌋

/-- JS `toFixed(1)` followed by `parseFloat`: round to one decimal place
    (for the positive BMI values at hand, `toFixed` rounds half up like `Math.round`). -/
def toFixed1 (q : ℚ) : ℚ :=
  (jsRound (q * 10) : ℚ) / 10

/-! ### Dosage and clinical-significance rules (PredictorForm.tsx:151, 444) -/

/-- src `calculateDosage` (PredictorForm.tsx:151-157). -/
def calculateDosage (bmi : ℚ) : String :=
  if bmi < 18.5 then "100mg daily"
  else if bmi < 25 then "150mg daily"
  else if bmi < 30 then "200mg daily"
  else "250mg daily"

/-- The mg/day amount named by a dosage string (the four literals `calculateDosage`
    can return), used to state monotonicity of the dosage bands. -/
def dosageMg (d : String) : ℕ :=
  if d = "100mg daily" then 100
  else if d = "150mg daily" then 150
  else if d = "200mg daily" then 200
  else 250

/-- src `getClinicalSignificance` (PredictorForm.tsx:444-449). -/
def getClinicalSignificance (phenotype : String) : String :=
  if strIncludes phenotype "Poor" then "High - Requires dose adjustment"
  else if strIncludes phenotype "Intermediate" then "Moderate - Monitor closely"
  else if strIncludes phenotype "Rapid" then "Moderate - May need higher doses"
  else "Normal - Standard dosing appropriate"

/-! ### Form state and BMI (PredictorForm.tsx:73, 140) -/

/-- The form fields `handleSubmit` reads. `weight`/`height` are text fields run
    through `parseFloat`; `none` models an empty or unparsable field (the NaN case,
    which compares false everywhere, is folded into `none`). -/
structure FormData where
  medicineName : String
  gender : String
  age : ℤ
  weight : Option ℚ
  height : Option ℚ
  chronicConditions : String
deriving DecidableEq

/-- src `calculatedBMI` memo (PredictorForm.tsx:140-149): `''` (here `none`) unless
    both weight and height are positive; otherwise `weight/(height/100)^2` shown
    with `toFixed(1)`. -/
def calculatedBMI (f : FormData) : Option ℚ :=
  match f.weight, f.height with
  | some w, some h =>
      if 0 < w ∧ 0 < h then some (toFixed1 (w / ((h / 100) * (h / 100)))) else none
  | _, _ => none

/-- `parseFloat(calculatedBMI || '25')` as used by both response mappers. -/
def bmiOrDefault (f : FormData) : ℚ :=
  (calculatedBMI f).getD 25

/-! ### Genetic markers (PredictorForm.tsx:426-449) -/

/-- One raw entry of the enhanced payload's `genetic_profile.genetic_markers` map. -/
structure GeneticMarkerData where
  genotype : Option String
  phenotype : Option String
  activity_score : Option ℚ
  drugs_affected : Option (List String)
deriving DecidableEq

/-- A mapped marker as built by `mapGeneticMarkers`. -/
structure GeneticMarker where
  gene : String
  genotype : String
  phenotype : String
  activityScore : ℚ
  drugsAffected : List String
  clinicalSignificance : String
deriving DecidableEq

/-- src `mapGeneticMarkers` (PredictorForm.tsx:426-441), the `for`-loop written as
    recursion on `Object.entries` of the marker map. Building one marker evaluates
    `getClinicalSignificance((data as any).phenotype)` on the raw field: when the
    field is absent, JS throws a TypeError (`.includes` on `undefined`), modeled as
    `.error`; the stored `phenotype` field itself is separately defaulted with
    `|| 'Unknown'`. -/
def mapGeneticMarkers : List (String × GeneticMarkerData) → Except String (List GeneticMarker)
  | [] => .ok []
  | entry :: rest =>
    match entry.2.phenotype with
    | none => .error "TypeError: Cannot read properties of undefined (reading \x27includes\x27)"
    | some p =>
      match mapGeneticMarkers rest with
      | .error e => .error e
      | .ok ms => .ok
          ({ gene := entry.1
             genotype := jsOrStr entry.2.genotype "Unknown"
             phenotype := if p = "" then "Unknown" else p
             activityScore := jsOrNum entry.2.activity_score 1.0
             drugsAffected := entry.2.drugs_affected.getD []
             clinicalSignificance := getClinicalSignificance p } :: ms)

/-! ### Backend payload shapes (PredictorForm.tsx:370-423) -/

/-- A JSON object the core only passes through, kept opaquely as key/value pairs. -/
abbrev Obj := List (String × String)

/-- The enhanced payload's nested `prediction` object. -/
structure EnhancedPrediction where
  prediction_label : Option String
  prediction : Option String
  confidence : Option ℚ
  reasoning : Option String
deriving DecidableEq

/-- `result.prediction || {}` default. -/
def emptyEnhancedPrediction : EnhancedPrediction :=
  ⟨none, none, none, none⟩

/-- The enhanced payload's `patient_data` object. -/
structure EnhancedPatientData where
  demographics : Option Obj
  current_vitals : Option Obj
  medical_history : Option (List String)
  allergies : Option (List Obj)
  current_medications : Option (List Obj)
deriving DecidableEq

/-- `result.patient_data || {}` default. -/
def emptyEnhancedPatientData : EnhancedPatientData :=
  ⟨none, none, none, none, none⟩

/-- The enhanced payload's `drug_info` object. -/
structure EnhancedDrugInfo where
  rxnorm_data : Option Obj
  fda_data : Option Obj
  interactions : Option Obj
  dosage_info : Option Obj
deriving DecidableEq

/-- `result.drug_info || {}` default. -/
def emptyEnhancedDrugInfo : EnhancedDrugInfo :=
  ⟨none, none, none, none⟩

/-- An enhanced-backend success body. `genetic_profile_markers` is
    `Object.entries((result.genetic_profile || {}).genetic_markers || {})`,
    already flattened to an entry list (absent maps become `[]`). -/
structure EnhancedPayload where
  prediction : Option EnhancedPrediction
  patient_data : Option EnhancedPatientData
  genetic_profile_markers : List (String × GeneticMarkerData)
  drug_info : Option EnhancedDrugInfo
  clinical_recommendations : Option (List String)
  explanation : Option String
  analysis_summary : Option String
deriving DecidableEq

/-- A standard-backend success body; `patient_data_bmi` is `result.patient_data?.bmi`. -/
structure StandardPayload where
  prediction_label : Option String
  prediction : Option String
  confidence : Option ℚ
  drug_name : Option String
  patient_data_bmi : Option ℚ
  explanation : Option String
  analysis_summary : Option String
  medicine_suitability : Option Obj
  genetic_markers : Option (List Obj)
deriving DecidableEq

/-! ### The canonical mapped result -/

/-- `geneticMarkers` is a gene-mapped list on the enhanced path and a raw
    pass-through list on the standard path. -/
inductive MarkersField where
  | mapped (l : List GeneticMarker)
  | raw (l : List Obj)
deriving DecidableEq

structure MappedPatientData where
  demographics : Obj
  vitals : Obj
  medicalHistory : List String
  allergies : List Obj
  currentMedications : List Obj
deriving DecidableEq

structure MappedDrugInfo where
  rxnormData : Obj
  fdaData : Obj
  interactions : Obj
  dosageInfo : Obj
deriving DecidableEq

/-- The front-end `PredictionResult` object stored in the `prediction` state. -/
structure MappedResult where
  prediction : Option String
  confidence : ℚ
  isRealAI : Bool
  isEnhanced : Bool
  drugName : Option String
  dosage : String
  explanation : String
  medicineSuitability : Option Obj
  geneticMarkers : MarkersField
  patientData : Option MappedPatientData
  drugInfo : Option MappedDrugInfo
  clinicalRecommendations : Option (List String)
  medicalHistory : String
  responseTime : ℕ
  source : String
deriving DecidableEq

/-- The default explanation string built inline in `mapEnhancedApiResponse`
    (PredictorForm.tsx:385). -/
def enhancedDefaultExplanation (predictionTime : ℕ) (pr : EnhancedPrediction) : String :=
  "AI prediction completed in " ++ toString predictionTime ++
  "ms using real-time patient data, genetic profile, and comprehensive drug " ++
  "information. Confidence: " ++ toString (jsRound (jsOrNum pr.confidence 0.85 * 100)) ++
  "%. " ++ jsOrStr pr.reasoning ""

/-- src `mapEnhancedApiResponse` (PredictorForm.tsx:370-405). The `TypeError`
    that `mapGeneticMarkers` can throw propagates, hence `Except`. -/
def mapEnhancedApiResponse (form : FormData) (result : EnhancedPayload)
    (predictionTime : ℕ) : Except String MappedResult :=
  let pr := result.prediction.getD emptyEnhancedPrediction
  let patientData := result.patient_data.getD emptyEnhancedPatientData
  let drugInfo := result.drug_info.getD emptyEnhancedDrugInfo
  let recommendations := result.clinical_recommendations.getD []
  match mapGeneticMarkers result.genetic_profile_markers with
  | .error e => .error e
  | .ok markers => .ok
    { prediction := jsOrStrOpt pr.prediction_label
        (jsOrStrOpt pr.prediction (some "Responsive"))
      confidence := jsOrNum pr.confidence 0.85
      isRealAI := true
      isEnhanced := true
      drugName := some form.medicineName
      dosage := calculateDosage (bmiOrDefault form)
      explanation := jsOrStr result.explanation (jsOrStr result.analysis_summary
        (enhancedDefaultExplanation predictionTime pr))
      medicineSuitability := none
      geneticMarkers := .mapped markers
      patientData := some
        { demographics := patientData.demographics.getD []
          vitals := patientData.current_vitals.getD []
          medicalHistory := patientData.medical_history.getD []
          allergies := patientData.allergies.getD []
          currentMedications := patientData.current_medications.getD [] }
      drugInfo := some
        { rxnormData := drugInfo.rxnorm_data.getD []
          fdaData := drugInfo.fda_data.getD []
          interactions := drugInfo.interactions.getD []
          dosageInfo := drugInfo.dosage_info.getD [] }
      clinicalRecommendations := some recommendations
      medicalHistory := jsOrStr (patientData.medical_history.map (String.intercalate ", "))
        (jsOrStr (some form.chronicConditions) "No specific contraindications noted")
      responseTime := predictionTime
      source := "enhanced_realtime_api" }

/-- src `getDrugInfo` (PredictorForm.tsx:714-721): a fixed fallback record. -/
structure DrugCategoryInfo where
  category : String
  uses : String
deriving DecidableEq

def getDrugInfo (_drugName : String) : DrugCategoryInfo :=
  { category := "Medication", uses := "Real-time data from medical databases" }

/-- src `generateExplanation` (PredictorForm.tsx:723-738). `predictionTime = 0` is
    falsy, so the time sentence is dropped for it exactly as in the ternary. -/
def generateExplanation (form : FormData) (apiResult : StandardPayload)
    (predictionTime : ℕ) : String :=
  let confidence := jsRound (jsOrNum apiResult.confidence 0.85 * 100)
  let predictionLabel := jsOrStrOpt apiResult.prediction_label apiResult.prediction
  let timeInfo := if predictionTime = 0 then ""
    else " Analysis completed in " ++ toString predictionTime ++
      "ms using real-time AI processing."
  let info := getDrugInfo (jsOrStr apiResult.drug_name form.medicineName)
  let drugContext := info.category ++ " commonly prescribed for " ++ info.uses
  if predictionLabel = some "Effective" then
    "The AI model analyzed the patient\x27s profile for " ++ drugContext ++
    ". The analysis predicts an effective response with " ++ toString confidence ++
    "% confidence. Based on the patient\x27s age, BMI, and medical history, the " ++
    "drug is expected to provide therapeutic benefits with minimal adverse effects." ++ timeInfo
  else if predictionLabel = some "Ineffective" then
    "The AI model analyzed " ++ drugContext ++ " and predicts limited " ++
    "effectiveness for this medication with " ++ toString confidence ++
    "% confidence. Alternative treatments or dosage adjustments may be " ++
    "considered based on the patient\x27s specific profile and medical history." ++ timeInfo
  else
    "The AI model analyzed " ++ drugContext ++ " and indicates potential risks " ++
    "or adverse effects with " ++ toString confidence ++
    "% confidence. Close monitoring and consultation with healthcare " ++
    "professionals is recommended for this patient-drug combination." ++ timeInfo

/-- src `mapStandardApiResponse` (PredictorForm.tsx:408-423). -/
def mapStandardApiResponse (form : FormData) (result : StandardPayload)
    (predictionTime : ℕ) : MappedResult :=
  { prediction := jsOrStrOpt result.prediction_label result.prediction
    confidence := jsOrNum result.confidence 0.85
    isRealAI := true
    isEnhanced := false
    drugName := result.drug_name
    dosage := calculateDosage (jsOrNum result.patient_data_bmi (bmiOrDefault form))
    explanation := jsOrStr result.explanation (jsOrStr result.analysis_summary
      (generateExplanation form result predictionTime))
    medicineSuitability := result.medicine_suitability
    geneticMarkers := .raw (result.genetic_markers.getD [])
    patientData := none
    drugInfo := none
    clinicalRecommendations := none
    medicalHistory := jsOrStr (some form.chronicConditions)
      "No specific contraindications noted"
    responseTime := predictionTime
    source := "standard_api" }

/-! ### The submission flow (PredictorForm.tsx:208-367) -/

/-- The observable outcome of one backend call from `handleSubmit`'s viewpoint:
    `networkError` = the `fetch` promise rejected; `httpError` = an HTTP response
    with `ok = false`; `malformedBody` = `ok` response whose `.json()` rejected;
    `ok` = a parsed success body. -/
inductive FetchOutcome (α : Type) where
  | networkError
  | httpError
  | malformedBody
  | ok (payload : α)
deriving DecidableEq

def FetchOutcome.isSuccess : FetchOutcome α → Bool
  | .ok _ => true
  | _ => false

/-- How one `handleSubmit` run ends: `success` = `setPrediction` was called with a
    result; `invalidDrugName` = the pre-submit PubChem gate returned false;
    `validationError` = a required-field check threw (alerted, no network call);
    `bothApisFailed` = the generic connection-failure alert (every failure of the
    backend phase, including the thrown `Both APIs failed`). -/
inductive SubmitOutcome where
  | success (r : MappedResult)
  | invalidDrugName
  | validationError (msg : String)
  | bothApisFailed
deriving DecidableEq

/-- src required-field checks (PredictorForm.tsx:228-242), in source order. -/
def validateRequiredFields (form : FormData) : Option String :=
  if trimStr form.medicineName = "" then some "Medicine name is required"
  else if form.gender = "" then some "Gender is required"
  else
    match form.height with
    | none => some "Valid height is required"
    | some h =>
      if h ≤ 0 then some "Valid height is required"
      else
        match form.weight with
        | none => some "Valid weight is required"
        | some w =>
          if w ≤ 0 then some "Valid weight is required"
          else if form.age ≤ 0 ∨ 120 < form.age then
            some "Valid age between 1 and 120 is required"
          else none

/-- Everything outside `handleSubmit`'s own control that one run observes:
    the drug-name gate's verdict, both backends' outcomes, the measured elapsed
    time, and the string `generateMedicineExplanation` would produce if invoked. -/
structure SubmitEnv where
  nameValid : Bool
  enhanced : FetchOutcome EnhancedPayload
  standard : FetchOutcome StandardPayload
  elapsed : ℕ
  synthesized : String

/-- src PredictorForm.tsx:330-339: after mapping, a falsy (empty) explanation is
    replaced in place by the synthesized one; otherwise the object is untouched. -/
def fillExplanation (synthesized : String) (r : MappedResult) : MappedResult :=
  if r.explanation = "" then { r with explanation := synthesized } else r

/-- src `handleSubmit` (PredictorForm.tsx:208-367) as a transition on the stored
    `prediction` React state. Returns the new state and the run's outcome. A
    rejection thrown anywhere inside the `try` (enhanced network error, malformed
    enhanced body, marker TypeError, any standard-path failure) lands in the
    common `catch` whose non-validation branch shows the connection-failure
    alert and leaves the prediction state alone. -/
def handleSubmit (form : FormData) (prev : Option MappedResult) (env : SubmitEnv) :
    Option MappedResult × SubmitOutcome :=
  if env.nameValid = false then (prev, .invalidDrugName)
  else
    match validateRequiredFields form with
    | some msg => (prev, .validationError msg)
    | none =>
      match env.enhanced with
      | .networkError => (prev, .bothApisFailed)
      | .malformedBody => (prev, .bothApisFailed)
      | .ok payload =>
        match mapEnhancedApiResponse form payload env.elapsed with
        | .error _ => (prev, .bothApisFailed)
        | .ok r =>
          let final := fillExplanation env.synthesized r
          (some final, .success final)
      | .httpError =>
        match env.standard with
        | .ok payload =>
          let final := fillExplanation env.synthesized
            (mapStandardApiResponse form payload env.elapsed)
          (some final, .success final)
        | _ => (prev, .bothApisFailed)

/-! ### Drug-info aggregation (PredictorForm.tsx:542-607) -/

/-- A successful `fetchRxNormData` result (PredictorForm.tsx:610-645). Only its
    presence matters to the aggregator; the fields ride along opaquely. -/
structure RxNormData where
  concepts : List Obj
  total_concepts : ℕ
deriving DecidableEq

/-- A successful `fetchFDAData` result (PredictorForm.tsx:648-679). -/
structure FdaData where
  generic_name : Option String
  brand_name : Option String
  indications : Option (List String)
  warnings : Option (List String)
deriving DecidableEq

/-- A successful `fetchPubChemData` result (PredictorForm.tsx:682-711). -/
structure PubChemData where
  molecular_formula : Option String
  molecular_weight : Option String
  canonical_smiles : Option String
deriving DecidableEq

/-- The record `fetchDirectDrugAPIs` accumulates. -/
structure DirectDrugInfo where
  drug_name : String
  sources : List String
  rxnorm : Option RxNormData
  fda : Option FdaData
  pubchem : Option PubChemData
deriving DecidableEq

/-- src `fetchDirectDrugAPIs` (PredictorForm.tsx:566-607). Each adapter argument
    is that call's outcome: `none` means the call failed or found nothing — each
    adapter sits in its own `try/catch`, so one failure is swallowed there and
    cannot affect the other two. Returns `none` when no source contributed. -/
def fetchDirectDrugAPIs (drugName : String) (rx : Option RxNormData)
    (fda : Option FdaData) (pc : Option PubChemData) : Option DirectDrugInfo :=
  let info0 : DirectDrugInfo := ⟨drugName, [], none, none, none⟩
  let info1 : DirectDrugInfo := match rx with
    | some r => { info0 with rxnorm := some r, sources := info0.sources ++ ["RxNorm"] }
    | none => info0
  let info2 : DirectDrugInfo := match fda with
    | some d => { info1 with fda := some d, sources := info1.sources ++ ["FDA"] }
    | none => info1
  let info3 : DirectDrugInfo := match pc with
    | some d => { info2 with pubchem := some d, sources := info2.sources ++ ["PubChem"] }
    | none => info2
  if 0 < info3.sources.length then some info3 else none

/-- What `fetchRealTimeDrugInfo` hands back to its caller. -/
inductive RealTimeDrugInfo where
  | backendData (d : Obj)
  | directData (d : DirectDrugInfo)
  | noData
deriving DecidableEq

/-- src `fetchRealTimeDrugInfo` (PredictorForm.tsx:542-563): the backend
    `/drug-info/` endpoint first (its `data` field returned verbatim), the three
    direct sources only when it failed, `null` when nothing succeeded. -/
def fetchRealTimeDrugInfo (drugName : String) (backend : Option Obj)
    (rx : Option RxNormData) (fda : Option FdaData) (pc : Option PubChemData) :
    RealTimeDrugInfo :=
  match backend with
  | some d => .backendData d
  | none =>
    match fetchDirectDrugAPIs drugName rx fda pc with
    | some i => .directData i
    | none => .noData

/-! ### Drug-name validation (PredictorForm.tsx:180-206) -/

instance {ε α : Type} [DecidableEq ε] [DecidableEq α] : DecidableEq (Except ε α) :=
  fun a b =>
    match a, b with
    | .error x, .error y =>
        if h : x = y then isTrue (by rw [h]) else isFalse (by simp [h])
    | .ok x, .ok y =>
        if h : x = y then isTrue (by rw [h]) else isFalse (by simp [h])
    | .error _, .ok _ => isFalse (by simp)
    | .ok _, .error _ => isFalse (by simp)

/-- One name-validation call: the raw input and the PubChem autocomplete
    outcome. `.error` = axios threw (timeout or transport failure);
    `.ok l` = the suggestion list `dictionary_terms.compound`. -/
structure ValidationCall where
  name : String
  response : Except Unit (List String)
deriving DecidableEq

/-- The `drugValidation` state values. -/
inductive ValidationState where
  | idle
  | checking
  | valid
  | invalid
deriving DecidableEq

/-- The `drugValidation` value the completion of one `validateDrugName` call
    writes (PredictorForm.tsx:180-206): invalid on empty name or a thrown
    request, otherwise valid exactly on a case-insensitive exact match. -/
def validationResult (c : ValidationCall) : ValidationState :=
  let drugName := trimStr c.name
  if drugName = "" then .invalid
  else
    match c.response with
    | .error _ => .invalid
    | .ok suggestions =>
      if suggestions.any (fun s => lowerStr s == lowerStr drugName) then .valid
      else .invalid

/-- An observable event of the validation state machine: a call starting (it
    synchronously writes `checking`, or `invalid` for an empty name and then
    never completes asynchronously) or a call's response arriving. -/
inductive VEvent where
  | start (c : ValidationCall)
  | complete (c : ValidationCall)
deriving DecidableEq

/-- State effect of one event. The source keeps no cancellation token, abort
    signal or sequence number for `validateDrugName`, so every issued call's
    response is processed and writes the state when it arrives. -/
def applyVEvent (st : ValidationState) : VEvent → ValidationState
  | .start c => if trimStr c.name = "" then .invalid else .checking
  | .complete c => if trimStr c.name = "" then st else validationResult c

/-- Run an interleaving of validation calls from the initial `idle` state. -/
def runValidationEvents (events : List VEvent) : ValidationState :=
  events.foldl applyVEvent .idle

/-! ### Concrete fixtures (used by witnesses and counterexamples) -/

/-- A form state that passes every required-field check. -/
def form0 : FormData :=
  { medicineName := "Metformin", gender := "male", age := 45,
    weight := some 70, height := some 170, chronicConditions := "Diabetes" }

/-- A standard-backend success body. -/
def stdPayload0 : StandardPayload :=
  { prediction_label := some "Effective", prediction := none, confidence := some 0.9,
    drug_name := some "Metformin", patient_data_bmi := some 24.2,
    explanation := some "Backend explanation.", analysis_summary := none,
    medicine_suitability := none, genetic_markers := none }

/-- An enhanced-backend success body with every optional field absent. -/
def enhPayload0 : EnhancedPayload :=
  { prediction := none, patient_data := none, genetic_profile_markers := [],
    drug_info := none, clinical_recommendations := none,
    explanation := none, analysis_summary := none }

/-- Enhanced call dies on a network error while the standard backend would succeed. -/
def envNet0 : SubmitEnv :=
  { nameValid := true, enhanced := .networkError, standard := .ok stdPayload0,
    elapsed := 100, synthesized := "synthesized explanation" }

/-- Enhanced call answers non-2xx; the standard backend succeeds. -/
def envHttp0 : SubmitEnv :=
  { nameValid := true, enhanced := .httpError, standard := .ok stdPayload0,
    elapsed := 100, synthesized := "synthesized explanation" }

/-- Both backends fail. -/
def envBothFail0 : SubmitEnv :=
  { nameValid := true, enhanced := .httpError, standard := .networkError,
    elapsed := 100, synthesized := "synthesized explanation" }

/-- The enhanced backend succeeds with the all-defaults body. -/
def envEnh0 : SubmitEnv :=
  { nameValid := true, enhanced := .ok enhPayload0, standard := .httpError,
    elapsed := 100, synthesized := "synthesized explanation" }

/-- The result `mapEnhancedApiResponse form0 enhPayload0 100` produces. -/
def enhMapped0 : MappedResult :=
  { prediction := some "Responsive"
    confidence := 0.85
    isRealAI := true
    isEnhanced := true
    drugName := some "Metformin"
    dosage := calculateDosage (bmiOrDefault form0)
    explanation := enhancedDefaultExplanation 100 emptyEnhancedPrediction
    medicineSuitability := none
    geneticMarkers := .mapped []
    patientData := some ⟨[], [], [], [], []⟩
    drugInfo := some ⟨[], [], [], []⟩
    clinicalRecommendations := some []
    medicalHistory := "Diabetes"
    responseTime := 100
    source := "enhanced_realtime_api" }

/-- A marker-map entry whose `phenotype` field is absent. -/
def badMarkerEntry : String × GeneticMarkerData :=
  ("CYP2D6",
   { genotype := some "*4/*4", phenotype := none,
     activity_score := some 1.5, drugs_affected := some ["codeine"] })

/-- `validate("Asp")` answered by the suggestion list of the spec scenario:
    no case-insensitive exact match, so this call's own result is `invalid`. -/
def vCallAsp : ValidationCall :=
  ⟨"Asp", .ok ["aspirin", "aspirin buffered"]⟩

/-- `validate("Aspirin")` answered by the same list: exact match, `valid`. -/
def vCallAspirin : ValidationCall :=
  ⟨"Aspirin", .ok ["aspirin", "aspirin buffered"]⟩

/-- An FDA-label adapter success. -/
def fdaData0 : FdaData :=
  { generic_name := some "aspirin", brand_name := some "Aspirin",
    indications := some ["pain"], warnings := some ["bleeding"] }

/-! ### Helper lemmas -/

theorem strAppendNeEmptyLeft (p s : String) (h : p ≠ "") : p ++ s ≠ "" := by
  intro hc
  apply h
  have hd : p.data ++ s.data = ([] : List Char) := by
    simpa using congrArg String.data hc
  rcases List.append_eq_nil.mp hd with ⟨h1, _⟩
  apply String.ext
  simpa using h1

theorem jsOrStr_ne_empty (v : Option String) (d : String) (h : d ≠ "") :
    jsOrStr v d ≠ "" := by
  unfold jsOrStr
  cases v with
  | none => exact h
  | some s =>
    show (if s = "" then d else s) ≠ ""
    by_cases hs : s = ""
    · rw [if_pos hs]
      exact h
    · rw [if_neg hs]
      exact hs

theorem enhancedDefaultExplanation_ne_empty (t : ℕ) (pr : EnhancedPrediction) :
    enhancedDefaultExplanation t pr ≠ "" := by
  unfold enhancedDefaultExplanation
  apply strAppendNeEmptyLeft
  apply strAppendNeEmptyLeft
  apply strAppendNeEmptyLeft
  apply strAppendNeEmptyLeft
  apply strAppendNeEmptyLeft
  apply strAppendNeEmptyLeft
  decide

theorem generateExplanation_ne_empty (form : FormData) (q : StandardPayload) (t : ℕ) :
    generateExplanation form q t ≠ "" := by
  simp only [generateExplanation]
  split_ifs <;>
    · repeat apply strAppendNeEmptyLeft
      decide

theorem fillExplanation_of_ne (synth : String) (r : MappedResult)
    (h : r.explanation ≠ "") : fillExplanation synth r = r := by
  unfold fillExplanation
  simp [h]

/-- The explanation field an `ok` enhanced mapping carries. -/
theorem mapEnhanced_ok_explanation (form : FormData) (p : EnhancedPayload) (t : ℕ)
    (r : MappedResult) (hmap : mapEnhancedApiResponse form p t = .ok r) :
    r.explanation = jsOrStr p.explanation (jsOrStr p.analysis_summary
      (enhancedDefaultExplanation t (p.prediction.getD emptyEnhancedPrediction))) := by
  unfold mapEnhancedApiResponse at hmap
  cases hm : mapGeneticMarkers p.genetic_profile_markers with
  | error e =>
    simp only [hm] at hmap
    exact Except.noConfusion hmap
  | ok ms =>
    simp only [hm, Except.ok.injEq] at hmap
    subst hmap
    rfl

theorem mapEnhanced_explanation_ne_empty (form : FormData) (p : EnhancedPayload)
    (t : ℕ) (r : MappedResult) (hmap : mapEnhancedApiResponse form p t = .ok r) :
    r.explanation ≠ "" := by
  rw [mapEnhanced_ok_explanation form p t r hmap]
  apply jsOrStr_ne_empty
  apply jsOrStr_ne_empty
  exact enhancedDefaultExplanation_ne_empty t _

theorem mapStandard_explanation_ne_empty (form : FormData) (q : StandardPayload)
    (t : ℕ) : (mapStandardApiResponse form q t).explanation ≠ "" := by
  show jsOrStr q.explanation (jsOrStr q.analysis_summary
    (generateExplanation form q t)) ≠ ""
  apply jsOrStr_ne_empty
  apply jsOrStr_ne_empty
  exact generateExplanation_ne_empty form q t

theorem dosageMg_100 : dosageMg "100mg daily" = 100 := by decide
theorem dosageMg_150 : dosageMg "150mg daily" = 150 := by decide
theorem dosageMg_200 : dosageMg "200mg daily" = 200 := by decide
theorem dosageMg_250 : dosageMg "250mg daily" = 250 := by decide

/-! ### Claim theorems -/

/-- C5 (confirmed): `calculateDosage` is a total step function over the four BMI
    bands with no gap or overlap — `"100mg daily"` below 18.5, `"150mg daily"` on
    `[18.5, 25)`, `"200mg daily"` on `[25, 30)`, `"250mg daily"` from 30 up, the
    boundary values 18.5, 25 and 30 resolving to the higher band — and the
    mg/day amount it names is monotonically non-decreasing in BMI. -/
theorem c5_dosage_bands_monotone (bmi bmi₁ bmi₂ : ℚ) :
    (bmi < 18.5 → calculateDosage bmi = "100mg daily") ∧
    (18.5 ≤ bmi → bmi < 25 → calculateDosage bmi = "150mg daily") ∧
    (25 ≤ bmi → bmi < 30 → calculateDosage bmi = "200mg daily") ∧
    (30 ≤ bmi → calculateDosage bmi = "250mg daily") ∧
    (bmi₁ ≤ bmi₂ → dosageMg (calculateDosage bmi₁) ≤ dosageMg (calculateDosage bmi₂)) := by
  refine ⟨?_, ?_, ?_, ?_, ?_⟩
  · intro h
    unfold calculateDosage
    rw [if_pos h]
  · intro h1 h2
    unfold calculateDosage
    rw [if_neg (by linarith), if_pos h2]
  · intro h1 h2
    unfold calculateDosage
    rw [if_neg (by linarith), if_neg (by linarith), if_pos h2]
  · intro h
    unfold calculateDosage
    rw [if_neg (by linarith), if_neg (by linarith), if_neg (by linarith)]
  · intro hle
    unfold calculateDosage
    split_ifs <;>
      simp only [dosageMg_100, dosageMg_150, dosageMg_200, dosageMg_250] <;>
      first
        | decide
        | (exfalso; linarith)

/-- Witness for C5 at the boundary and interior points. -/
theorem c5_dosage_bands_monotone_witness :
    calculateDosage 17 = "100mg daily" ∧ calculateDosage 18.5 = "150mg daily" ∧
    calculateDosage 25 = "200mg daily" ∧ calculateDosage 30 = "250mg daily" ∧
    dosageMg (calculateDosage 17) ≤ dosageMg (calculateDosage 30) :=
  ⟨(c5_dosage_bands_monotone 17 0 0).1 (by norm_num),
   (c5_dosage_bands_monotone 18.5 0 0).2.1 (by norm_num) (by norm_num),
   (c5_dosage_bands_monotone 25 0 0).2.2.1 (by norm_num) (by norm_num),
   (c5_dosage_bands_monotone 30 0 0).2.2.2.1 (by norm_num),
   (c5_dosage_bands_monotone 0 17 30).2.2.2.2 (by norm_num)⟩

/-- C6 counterexample: the code's rule outputs use an ASCII hyphen, not the
    en dash the claim quotes: on `"CYP2D6 Poor Rapid"` the function returns
    `"High - Requires dose adjustment"`, which differs from the claimed
    `"High – Requires dose adjustment"`. -/
theorem c6_counterexample :
    getClinicalSignificance "CYP2D6 Poor Rapid" = "High - Requires dose adjustment" ∧
    "High - Requires dose adjustment" ≠ "High – Requires dose adjustment" :=
  ⟨by decide, by decide⟩

/-- C6 (corrected: outputs use an ASCII hyphen `-`, not an en dash `–`):
    `getClinicalSignificance` applies case-sensitive substring rules in fixed
    order with the first match winning — `"Poor"`, then `"Intermediate"`, then
    `"Rapid"`, else the normal default — and `"CYP2D6 Poor Rapid"` resolves via
    the `"Poor"` rule. -/
theorem c6_clinical_significance_rules (p : String) :
    (strIncludes p "Poor" = true →
        getClinicalSignificance p = "High - Requires dose adjustment") ∧
    (strIncludes p "Poor" = false → strIncludes p "Intermediate" = true →
        getClinicalSignificance p = "Moderate - Monitor closely") ∧
    (strIncludes p "Poor" = false → strIncludes p "Intermediate" = false →
        strIncludes p "Rapid" = true →
        getClinicalSignificance p = "Moderate - May need higher doses") ∧
    (strIncludes p "Poor" = false → strIncludes p "Intermediate" = false →
        strIncludes p "Rapid" = false →
        getClinicalSignificance p = "Normal - Standard dosing appropriate") ∧
    getClinicalSignificance "CYP2D6 Poor Rapid" = "High - Requires dose adjustment" := by
  refine ⟨?_, ?_, ?_, ?_, by decide⟩ <;>
    · intros
      unfold getClinicalSignificance
      simp [*]

/-- Witness for C6 exercising each rule at a concrete phenotype. -/
theorem c6_clinical_significance_rules_witness :
    getClinicalSignificance "CYP2D6 Poor Metabolizer" = "High - Requires dose adjustment" ∧
    getClinicalSignificance "Intermediate Metabolizer" = "Moderate - Monitor closely" ∧
    getClinicalSignificance "Ultra Rapid Metabolizer" = "Moderate - May need higher doses" ∧
    getClinicalSignificance "Normal Metabolizer" = "Normal - Standard dosing appropriate" :=
  ⟨(c6_clinical_significance_rules "CYP2D6 Poor Metabolizer").1 (by decide),
   (c6_clinical_significance_rules "Intermediate Metabolizer").2.1 (by decide) (by decide),
   (c6_clinical_significance_rules "Ultra Rapid Metabolizer").2.2.1
     (by decide) (by decide) (by decide),
   (c6_clinical_significance_rules "Normal Metabolizer").2.2.2.1
     (by decide) (by decide) (by decide)⟩

/-- C10 (confirmed): a genetic-marker entry with no `phenotype` field makes
    `mapGeneticMarkers` throw (the raw field reaches
    `getClinicalSignificance`, which calls `.includes` on `undefined`), so no
    marker list — in particular none carrying the default
    `"Normal - Standard dosing appropriate"` significance — is produced,
    even though the stored `phenotype` field would have been defaulted to
    `"Unknown"`. -/
theorem c10_missing_phenotype_throws (data : List (String × GeneticMarkerData))
    (entry : String × GeneticMarkerData) (hmem : entry ∈ data)
    (hph : entry.2.phenotype = none) :
    (∃ e, mapGeneticMarkers data = .error e) ∧
    ∀ ms, mapGeneticMarkers data ≠ .ok ms := by
  have herr : ∃ e, mapGeneticMarkers data = .error e := by
    induction data with
    | nil => cases hmem
    | cons head tail ih =>
      rcases List.mem_cons.mp hmem with heq | hmem2
      · subst heq
        exact ⟨"TypeError: Cannot read properties of undefined (reading \x27includes\x27)",
          by simp [mapGeneticMarkers, hph]⟩
      · rcases ih hmem2 with ⟨e, he⟩
        cases hhp : head.2.phenotype with
        | none =>
          exact ⟨"TypeError: Cannot read properties of undefined (reading \x27includes\x27)",
            by simp [mapGeneticMarkers, hhp]⟩
        | some ph => exact ⟨e, by simp [mapGeneticMarkers, hhp, he]⟩
  refine ⟨herr, ?_⟩
  rcases herr with ⟨e, he⟩
  intro ms
  rw [he]
  simp

/-- Witness for C10 at a concrete one-entry marker map. -/
theorem c10_missing_phenotype_throws_witness :
    (∃ e, mapGeneticMarkers [badMarkerEntry] = .error e) ∧
    ∀ ms, mapGeneticMarkers [badMarkerEntry] ≠ .ok ms :=
  c10_missing_phenotype_throws [badMarkerEntry] badMarkerEntry
    (List.mem_singleton.mpr rfl) rfl

/-- C3 (confirmed): when the enhanced payload's nested prediction object omits
    the outcome label (both `prediction_label` and `prediction`) and the
    confidence, normalization yields the label `"Responsive"` and confidence
    exactly `0.85`. -/
theorem c3_enhanced_defaults (form : FormData) (p : EnhancedPayload) (t : ℕ)
    (r : MappedResult)
    (hlabel : (p.prediction.getD emptyEnhancedPrediction).prediction_label = none)
    (hpred : (p.prediction.getD emptyEnhancedPrediction).prediction = none)
    (hconf : (p.prediction.getD emptyEnhancedPrediction).confidence = none)
    (hmap : mapEnhancedApiResponse form p t = .ok r) :
    r.prediction = some "Responsive" ∧ r.confidence = 0.85 := by
  unfold mapEnhancedApiResponse at hmap
  cases hm : mapGeneticMarkers p.genetic_profile_markers with
  | error e =>
    simp only [hm] at hmap
    exact Except.noConfusion hmap
  | ok ms =>
    simp only [hm, Except.ok.injEq] at hmap
    subst hmap
    constructor
    · show jsOrStrOpt (p.prediction.getD emptyEnhancedPrediction).prediction_label
        (jsOrStrOpt (p.prediction.getD emptyEnhancedPrediction).prediction
          (some "Responsive")) = some "Responsive"
      rw [hlabel, hpred]
      rfl
    · show jsOrNum (p.prediction.getD emptyEnhancedPrediction).confidence 0.85 = 0.85
      rw [hconf]
      rfl

/-- Witness for C3 at the all-defaults enhanced payload. -/
theorem c3_enhanced_defaults_witness :
    enhMapped0.prediction = some "Responsive" ∧ enhMapped0.confidence = 0.85 :=
  c3_enhanced_defaults form0 enhPayload0 100 enhMapped0 rfl rfl rfl rfl

/-- C4 counterexample: for the concrete enhanced payload supplying neither an
    `explanation` nor an `analysis_summary`, normalization does not leave the
    explanation blank — it fills it with the inline completion-summary default,
    which is non-empty, so the synthesizer gate (which fires only on an empty
    explanation) leaves the result untouched and the synthesizer never runs. -/
theorem c4_counterexample :
    mapEnhancedApiResponse form0 enhPayload0 100 = .ok enhMapped0 ∧
    enhMapped0.explanation ≠ "" ∧
    fillExplanation "SYNTHESIZED" enhMapped0 = enhMapped0 :=
  ⟨rfl,
   enhancedDefaultExplanation_ne_empty 100 emptyEnhancedPrediction,
   fillExplanation_of_ne _ _
     (enhancedDefaultExplanation_ne_empty 100 emptyEnhancedPrediction)⟩

/-- C4 (corrected): for every enhanced payload that supplies neither an
    explanation nor an analysis-summary field, normalization does not leave the
    explanation blank: it sets it to the inline completion-summary default
    (elapsed time, confidence, reasoning), which is never empty, so the
    explanation synthesizer — which runs only when the mapped explanation is
    empty — never runs for such payloads. -/
theorem c4_explanation_never_blank (form : FormData) (p : EnhancedPayload) (t : ℕ)
    (r : MappedResult) (synth : String)
    (hex : p.explanation = none) (has : p.analysis_summary = none)
    (hmap : mapEnhancedApiResponse form p t = .ok r) :
    r.explanation =
      enhancedDefaultExplanation t (p.prediction.getD emptyEnhancedPrediction) ∧
    r.explanation ≠ "" ∧
    fillExplanation synth r = r := by
  have hx := mapEnhanced_ok_explanation form p t r hmap
  rw [hex, has] at hx
  have hx2 : r.explanation =
      enhancedDefaultExplanation t (p.prediction.getD emptyEnhancedPrediction) := hx
  have hne : r.explanation ≠ "" := by
    rw [hx2]
    exact enhancedDefaultExplanation_ne_empty t _
  exact ⟨hx2, hne, fillExplanation_of_ne synth r hne⟩

/-- Witness for C4's amended statement at the all-defaults enhanced payload. -/
theorem c4_explanation_never_blank_witness :
    enhMapped0.explanation = enhancedDefaultExplanation 100 emptyEnhancedPrediction ∧
    enhMapped0.explanation ≠ "" ∧
    fillExplanation "SYNTH2" enhMapped0 = enhMapped0 :=
  c4_explanation_never_blank form0 enhPayload0 100 enhMapped0 "SYNTH2" rfl rfl rfl

/-- C7 (confirmed): the direct drug-info aggregation returns `null` exactly when
    no source produced data; otherwise the record carries each adapter's result
    unchanged and `sources` lists exactly the succeeding adapters in the fixed
    RxNorm, FDA, PubChem order; and with the internal backend endpoint failed
    and only the regulatory-label service succeeding, the caller receives a
    record whose `sources` is exactly `["FDA"]`, with no error raised. -/
theorem c7_drug_info_aggregation (name : String) (rx : Option RxNormData)
    (fda : Option FdaData) (pc : Option PubChemData) :
    (fetchDirectDrugAPIs name rx fda pc = none ↔
        rx = none ∧ fda = none ∧ pc = none) ∧
    (∀ info, fetchDirectDrugAPIs name rx fda pc = some info →
        info.sources =
          (if rx.isSome then ["RxNorm"] else []) ++
          (if fda.isSome then ["FDA"] else []) ++
          (if pc.isSome then ["PubChem"] else []) ∧
        info.rxnorm = rx ∧ info.fda = fda ∧ info.pubchem = pc ∧
        info.drug_name = name) ∧
    (∀ d, fetchRealTimeDrugInfo name none none (some d) none =
        .directData ⟨name, ["FDA"], none, some d, none⟩) := by
  refine ⟨?_, ?_, ?_⟩
  · cases rx <;> cases fda <;> cases pc <;> simp [fetchDirectDrugAPIs]
  · intro info h
    cases rx <;> cases fda <;> cases pc <;>
      simp [fetchDirectDrugAPIs] at h <;> simp [← h]
  · intro d
    rfl

/-- Witness for C7: all-failed yields no data; label-only yields `["FDA"]`. -/
theorem c7_drug_info_aggregation_witness :
    fetchDirectDrugAPIs "aspirin" none none none = none ∧
    DirectDrugInfo.sources ⟨"aspirin", ["FDA"], none, some fdaData0, none⟩ =
      (if (none : Option RxNormData).isSome then ["RxNorm"] else []) ++
      (if (some fdaData0).isSome then ["FDA"] else []) ++
      (if (none : Option PubChemData).isSome then ["PubChem"] else []) ∧
    fetchRealTimeDrugInfo "aspirin" none none (some fdaData0) none =
      .directData ⟨"aspirin", ["FDA"], none, some fdaData0, none⟩ :=
  ⟨(c7_drug_info_aggregation "aspirin" none none none).1.mpr ⟨rfl, rfl, rfl⟩,
   ((c7_drug_info_aggregation "aspirin" none (some fdaData0) none).2.1
      ⟨"aspirin", ["FDA"], none, some fdaData0, none⟩ rfl).1,
   (c7_drug_info_aggregation "aspirin" none (some fdaData0) none).2.2 fdaData0⟩

/-- C9 counterexample: `validateDrugName` keeps no cancellation token, so with
    `validate("Asp")` issued and then `validate("Aspirin")` issued while the
    first is still in flight, responses arriving out of order leave the final
    state at the FIRST call's result (`invalid`), not the second call's result
    (`valid`) as the claim requires. -/
theorem c9_counterexample :
    runValidationEvents
      [.start vCallAsp, .start vCallAspirin,
       .complete vCallAspirin, .complete vCallAsp] = .invalid ∧
    validationResult vCallAspirin = .valid ∧
    runValidationEvents
      [.start vCallAsp, .start vCallAspirin,
       .complete vCallAspirin, .complete vCallAsp] ≠
      validationResult vCallAspirin :=
  ⟨by decide, by decide, by decide⟩

/-- C9 (corrected): superseded validation calls are not cancelled; the final
    ValidationState is simply the result of whichever call's response is
    processed last. The second call's result is authoritative only when its
    response arrives last (in-order completion); a stale earlier response that
    arrives after it overwrites the newer result. -/
theorem c9_last_response_wins (pre : List VEvent) (c : ValidationCall)
    (h : trimStr c.name ≠ "") :
    runValidationEvents (pre ++ [.complete c]) = validationResult c := by
  unfold runValidationEvents
  rw [List.foldl_append]
  simp [applyVEvent, h]

/-- Witness for C9's amended statement: in-order completion of the two spec
    scenario calls leaves the second call's result. -/
theorem c9_last_response_wins_witness :
    runValidationEvents
      [.start vCallAsp, .start vCallAspirin,
       .complete vCallAsp, .complete vCallAspirin] =
      validationResult vCallAspirin :=
  c9_last_response_wins
    [.start vCallAsp, .start vCallAspirin, .complete vCallAsp]
    vCallAspirin (by decide)

/-- C1 counterexample: the enhanced attempt fails with a NETWORK error while
    the standard backend would succeed, yet the submission ends in the
    connection-failure outcome with no result from any backend — the standard
    backend is never attempted, contradicting the claim that any enhanced
    failure (non-2xx, network error, or malformed body) triggers the fallback. -/
theorem c1_counterexample :
    handleSubmit form0 none envNet0 = (none, .bothApisFailed) ∧
    envNet0.standard = .ok stdPayload0 :=
  ⟨rfl, rfl⟩

/-- C1 (corrected): the standard backend is attempted only when the enhanced
    attempt returns a non-2xx HTTP response; an enhanced network error or
    malformed body aborts the submission with no fallback. When a result is
    built, exactly one backend's success builds it: on fallback the result is
    the standard mapping alone, and on enhanced success the whole run is
    independent of the standard backend's outcome (no merging). -/
theorem c1_fallback_only_on_http_error (form : FormData) (prev : Option MappedResult)
    (env : SubmitEnv) (hname : env.nameValid = true)
    (hval : validateRequiredFields form = none) :
    (env.enhanced = .httpError → ∀ q, env.standard = .ok q →
        handleSubmit form prev env =
          (some (fillExplanation env.synthesized
              (mapStandardApiResponse form q env.elapsed)),
           .success (fillExplanation env.synthesized
              (mapStandardApiResponse form q env.elapsed)))) ∧
    (∀ p, env.enhanced = .ok p → ∀ std2,
        handleSubmit form prev env =
          handleSubmit form prev { env with standard := std2 }) ∧
    ((env.enhanced = .networkError ∨ env.enhanced = .malformedBody) →
        handleSubmit form prev env = (prev, .bothApisFailed)) := by
  obtain ⟨nv, enh, std, el, sy⟩ := env
  simp only at hname ⊢
  subst hname
  refine ⟨?_, ?_, ?_⟩
  · intro he q hs
    subst he
    subst hs
    simp [handleSubmit, hval]
  · intro p he std2
    subst he
    simp [handleSubmit, hval]
  · rintro (he | he) <;> subst he <;> simp [handleSubmit, hval]

/-- Witness for C1's amended statement: a non-2xx enhanced response followed by
    a standard success builds the result from the standard payload alone. -/
theorem c1_fallback_only_on_http_error_witness :
    handleSubmit form0 none envHttp0 =
      (some (fillExplanation "synthesized explanation"
          (mapStandardApiResponse form0 stdPayload0 100)),
       .success (fillExplanation "synthesized explanation"
          (mapStandardApiResponse form0 stdPayload0 100))) :=
  (c1_fallback_only_on_http_error form0 none envHttp0 rfl rfl).1 rfl stdPayload0 rfl

/-- C2 (confirmed): when the drug-name gate and the required-field checks pass
    and both backend attempts are unsuccessful (any mix of network error,
    non-2xx response or malformed body), the run ends in the all-backends-failed
    outcome — the thrown `Both APIs failed` error surfaced as the
    connection-failure alert — and the stored prediction state is left exactly
    as it was: no PredictionResult is produced. -/
theorem c2_all_backends_failed (form : FormData) (prev : Option MappedResult)
    (env : SubmitEnv) (hname : env.nameValid = true)
    (hval : validateRequiredFields form = none)
    (henh : env.enhanced.isSuccess = false)
    (hstd : env.standard.isSuccess = false) :
    handleSubmit form prev env = (prev, .bothApisFailed) := by
  obtain ⟨nv, enh, std, el, sy⟩ := env
  simp only at hname henh hstd
  subst hname
  cases enh with
  | ok p => simp [FetchOutcome.isSuccess] at henh
  | httpError =>
    cases std with
    | ok q => simp [FetchOutcome.isSuccess] at hstd
    | networkError => simp [handleSubmit, hval]
    | httpError => simp [handleSubmit, hval]
    | malformedBody => simp [handleSubmit, hval]
  | networkError => simp [handleSubmit, hval]
  | malformedBody => simp [handleSubmit, hval]

/-- Witness for C2 with a non-2xx enhanced response and a standard network
    error, starting from an empty prediction state. -/
theorem c2_all_backends_failed_witness :
    handleSubmit form0 none envBothFail0 = (none, .bothApisFailed) :=
  c2_all_backends_failed form0 none envBothFail0 rfl rfl rfl rfl

/-- C8 (confirmed): the mapped PredictionResult is never mutated after
    construction and a successful submission replaces the stored result
    wholesale: the only post-construction in-place write in the flow — the
    explanation fill at PredictorForm.tsx:336 — is a no-op because every mapped
    result already carries a non-empty explanation; the run's outcome is
    independent of whatever result was stored before; and a successful run
    stores exactly the freshly built result. -/
theorem c8_result_immutable (form : FormData) (env : SubmitEnv)
    (prev1 prev2 : Option MappedResult) (synth : String) :
    (∀ p t r, mapEnhancedApiResponse form p t = .ok r →
        fillExplanation synth r = r) ∧
    (∀ q t, fillExplanation synth (mapStandardApiResponse form q t) =
        mapStandardApiResponse form q t) ∧
    (handleSubmit form prev1 env).2 = (handleSubmit form prev2 env).2 ∧
    (∀ r, (handleSubmit form prev1 env).2 = .success r →
        (handleSubmit form prev1 env).1 = some r) := by
  refine ⟨?_, ?_, ?_, ?_⟩
  · intro p t r hmap
    exact fillExplanation_of_ne _ _ (mapEnhanced_explanation_ne_empty form p t r hmap)
  · intro q t
    exact fillExplanation_of_ne _ _ (mapStandard_explanation_ne_empty form q t)
  · obtain ⟨nv, enh, std, el, sy⟩ := env
    cases nv
    · simp [handleSubmit]
    · cases hv : validateRequiredFields form with
      | some msg => simp [handleSubmit, hv]
      | none =>
        cases enh with
        | networkError => simp [handleSubmit, hv]
        | malformedBody => simp [handleSubmit, hv]
        | httpError => cases std <;> simp [handleSubmit, hv]
        | ok p =>
          cases hm : mapEnhancedApiResponse form p el <;>
            simp [handleSubmit, hv, hm]
  · intro r
    obtain ⟨nv, enh, std, el, sy⟩ := env
    cases nv
    · simp [handleSubmit]
    · cases hv : validateRequiredFields form with
      | some msg => simp [handleSubmit, hv]
      | none =>
        cases enh with
        | networkError => simp [handleSubmit, hv]
        | malformedBody => simp [handleSubmit, hv]
        | httpError =>
          cases std <;> simp [handleSubmit, hv]
        | ok p =>
          cases hm : mapEnhancedApiResponse form p el <;>
            simp [handleSubmit, hv, hm]

/-- Witness for C8: the no-op fill on concrete mapped results, outcome
    independence from the previously stored result, and wholesale storage of a
    concrete successful run's result. -/
theorem c8_result_immutable_witness :
    fillExplanation "SYNTH3" enhMapped0 = enhMapped0 ∧
    fillExplanation "SYNTH3" (mapStandardApiResponse form0 stdPayload0 100) =
      mapStandardApiResponse form0 stdPayload0 100 ∧
    (handleSubmit form0 none envEnh0).2 =
      (handleSubmit form0 (some enhMapped0) envEnh0).2 ∧
    (handleSubmit form0 none envEnh0).1 = some enhMapped0 :=
  ⟨(c8_result_immutable form0 envEnh0 none (some enhMapped0) "SYNTH3").1
      enhPayload0 100 enhMapped0 rfl,
   (c8_result_immutable form0 envEnh0 none (some enhMapped0) "SYNTH3").2.1
      stdPayload0 100,
   (c8_result_immutable form0 envEnh0 none (some enhMapped0) "SYNTH3").2.2.1,
   (c8_result_immutable form0 envEnh0 none (some enhMapped0) "SYNTH3").2.2.2
      enhMapped0 rfl⟩

end DrugPredict
